import Mathlib

/-!
Shallow embedding of the .NET project modification-history analyzer
(src/main.py, src/project.py, src/project_modification_analyzer.py,
src/tools.py).  Pure Python functions become Lean functions; the external
git process is modelled by an explicit outcome value; Python exceptions
become an `Except` layer; Python's insertion-ordered dicts become
association lists (all dict keys used by the program are pairwise
distinct, so the models coincide); host-path helpers from the standard
library (os.path.relpath, os.path.normpath) are modelled as given inputs.
Diagnostics printed to stderr are threaded as explicit message lists.
-/

namespace PMH

/-- Outcome of spawning the external git process: it either ran and
produced an exit code, stdout and stderr, or spawning failed with an
OSError, or its output bytes were not decodable as text. -/
inductive GitOutcome where
| ran : Int → String → String → GitOutcome
| spawnFail : String → GitOutcome
| undecodable : GitOutcome
deriving DecidableEq

/-- Python exceptions relevant to the analyzer's git calls. -/
inductive PyExc where
| calledProcessError : Int → String → PyExc
| osError : String → PyExc
| unicodeDecodeError : PyExc
deriving DecidableEq

/-- subprocess.CompletedProcess as used by the analyzer. -/
structure CompletedProcess where
  returncode : Int
  stdout : String
  stderr : String
deriving DecidableEq

/-- tools.subprocess_check: subprocess.run(cmd, ..., text=True, check=True).
With check=True a non-zero exit raises CalledProcessError (a
SubprocessError); a spawn failure raises OSError; undecodable output
raises UnicodeDecodeError during text decoding. -/
def subprocessCheck : GitOutcome → Except PyExc CompletedProcess
  | GitOutcome.ran code out err =>
      if code ≠ 0 then Except.error (PyExc.calledProcessError code err)
      else Except.ok { returncode := code, stdout := out, stderr := err }
  | GitOutcome.spawnFail msg => Except.error (PyExc.osError msg)
  | GitOutcome.undecodable => Except.error PyExc.unicodeDecodeError

/-- Which exceptions the except-clause of Project._get_git_modification_dates
catches: `except (subprocess.SubprocessError, OSError)`.  CalledProcessError
is a SubprocessError; UnicodeDecodeError is a ValueError and is not listed. -/
def caughtByGitLog : PyExc → Bool
  | PyExc.calledProcessError _ _ => true
  | PyExc.osError _ => true
  | PyExc.unicodeDecodeError => false

/-- Split a string into lines at newline characters (str.splitlines as it
applies to git log output, which contains no other line separators). -/
def splitLinesAux : List Char → List Char → List String
  | [], acc => [String.mk acc.reverse]
  | c :: cs, acc =>
      if c = Char.ofNat 10 then String.mk acc.reverse :: splitLinesAux cs []
      else splitLinesAux cs (c :: acc)

/-- result.stdout.splitlines(); empty lines are filtered out by the caller,
which makes this model agree with Python on empty and trailing-newline
output. -/
def splitLines (s : String) : List String := splitLinesAux s.toList []

/-- Diagnostic for a git log run that returned non-zero (dead branch under
check=True). -/
def gitLogFailedMsg (dir : String) : String :=
  ("Warning: git log failed for ") ++ dir

/-- Diagnostic for a caught git log exception. -/
def gitLogExcMsg (dir : String) : String :=
  ("Warning: git log exception for ") ++ dir

/-- Project._get_git_modification_dates, with the current value of
self.total_modifications passed in (the except branch leaves it
unchanged).  Returns the dates list, the new total and the warnings
printed, or propagates an uncaught exception. -/
def getGitModificationDates (dir : String) (g : GitOutcome) (total0 : Nat) :
    Except PyExc (List String × Nat × List String) :=
  match subprocessCheck g with
  | Except.ok result =>
      let warn := if result.returncode ≠ 0 then [gitLogFailedMsg dir] else []
      let dates := (splitLines result.stdout).filter (fun date => date ≠ "")
      Except.ok (dates, dates.length, warn)
  | Except.error e =>
      if caughtByGitLog e then Except.ok ([], total0, [gitLogExcMsg dir])
      else Except.error e

/-- date.split("-")[0]: the prefix of the date string before the first
dash. -/
def yearOf (date : String) : String :=
  String.mk (date.toList.takeWhile (fun c => c ≠ '-'))

/-- Increment the value at a key if the key is present, leaving the map
unchanged otherwise (`if y in self.year_counts: self.year_counts[y] += 1`). -/
def bumpKey : List (String × Nat) → String → List (String × Nat)
  | [], _ => []
  | (k, v) :: rest, y =>
      if k = y then (k, v + 1) :: rest else (k, v) :: bumpKey rest y

/-- Project._tally_year_counts. -/
def tallyYearCounts (yearCounts : List (String × Nat)) (dates : List String) :
    List (String × Nat) :=
  dates.foldl (fun yc date => bumpKey yc (yearOf date)) yearCounts

/-- Project.ACC_MAX_YEARS. -/
def ACC_MAX_YEARS : Nat := 5

/-- The loop of Project._compute_accumulators:
`running = 0; for k in range(1, acc_len + 1): running += vals[k-1]`. -/
def accGo (vals : List Nat) : Nat → Nat → Nat → List (String × Nat)
  | _, _, 0 => []
  | k, running, n + 1 =>
      let r := running + vals.getD (k - 1) 0
      (("Acc_") ++ toString k, r) :: accGo vals (k + 1) r n

/-- Project._compute_accumulators: the resulting accumulators dict, whose
values are read from the year-counts dict in its insertion order. -/
def computeAccumulators (yearCounts : List (String × Nat)) (accLen : Nat) :
    List (String × Nat) :=
  accGo (yearCounts.map Prod.snd) 1 0 accLen

/-- The Project object (src/project.py).  `modification_dates` is never
read after initialization and is omitted; the root path only feeds the
relative-path computation, so `dir` and `relDir` are taken as given. -/
structure Project where
  dir : String
  relDir : String
  projectfiles : List String
  totalModifications : Nat
  yearCounts : List (String × Nat)
  accLen : Nat
  accumulators : List (String × Nat)
deriving DecidableEq

/-- Project.__init__. -/
def Project.init (dir relDir : String) (projectfiles : List String)
    (years : List String) : Project :=
  { dir := dir, relDir := relDir, projectfiles := projectfiles,
    totalModifications := 0,
    yearCounts := years.map (fun y => (y, 0)),
    accLen := min ACC_MAX_YEARS years.length,
    accumulators :=
      (List.range (min ACC_MAX_YEARS years.length)).map
        (fun i => (("Acc_") ++ toString (i + 1), 0)) }

/-- Project.analyze_directory: query history, tally year counts, compute
accumulators.  An exception the query does not catch propagates. -/
def Project.analyzeDirectory (p : Project) (g : GitOutcome) :
    Except PyExc Project :=
  match getGitModificationDates p.dir g p.totalModifications with
  | Except.error e => Except.error e
  | Except.ok (dates, total, _warn) =>
      let yc := tallyYearCounts p.yearCounts dates
      Except.ok { p with totalModifications := total, yearCounts := yc,
                         accumulators := computeAccumulators yc p.accLen }

/-- A CSV row as built by Project.generate_csv_data: an insertion-ordered
dict from column name to rendered value. -/
abbrev Row := List (String × String)

/-- os.path.splitext(file)[1] for ordinary project file names (a name with
no dot, or whose only leading character is not a dot, splits at the last
dot). -/
def splitextExt (file : String) : String :=
  let parts := file.toList.reverse.takeWhile (fun c => c ≠ '.')
  if parts.length = file.toList.length then ("")
  else ("." ) ++ String.mk parts.reverse

/-- normalize_rel(os.path.join(rel_dir, file)) for an already-normalized
relative directory. -/
def joinRel (relDir file : String) : String := relDir ++ ("/") ++ file

/-- Project.generate_csv_data: one row per project file; each row is the
fixed columns followed by the year-counts and accumulator dicts (dict
update appends fresh keys in order; year labels and accumulator names are
distinct from the fixed column names).  When there are no rows the code
returns the pair ([], []) in place of a header list; we return [] for the
headers, which compares unequal to any canonical header just as Python's
value does. -/
def Project.generateCsvData (p : Project) : List Row × List String :=
  let rows := p.projectfiles.map (fun file =>
    (("Project"), joinRel p.relDir file) ::
    (("Extension"), splitextExt file) ::
    (("Total"), toString p.totalModifications) ::
    (p.yearCounts.map (fun kv => (kv.1, toString kv.2)) ++
     p.accumulators.map (fun kv => (kv.1, toString kv.2))))
  match rows with
  | [] => ([], [])
  | r :: _ => (rows, r.map Prod.fst)

/-- ProjectModificationAnalyzer._build_headers. -/
def buildHeaders (years : List String) (accMax : Nat) : List String :=
  ("Project") :: ("Extension") :: ("Total") ::
    (years ++ (List.range accMax).map (fun i => ("Acc_") ++ toString (i + 1)))

/-- The canonical header the analyzer constructor derives once per run:
self._build_headers(years, Project.ACC_MAX_YEARS). -/
def analyzerCsvHeaders (years : List String) : List String :=
  buildHeaders years ACC_MAX_YEARS

/-- Diagnostic for a project that produced no rows. -/
def noDataMsg (relDir : String) : String :=
  ("No data available for directory at ") ++ relDir

/-- Diagnostic for a project whose row keys disagree with the canonical
header. -/
def mismatchMsg (relDir : String) : String :=
  ("Error: CSV headers mismatch for directory at ") ++ relDir

/-- ProjectModificationAnalyzer._aggregate_modifications: analyze each
project in order; a project whose row keys disagree with the canonical
header contributes no rows, only a diagnostic, and the loop continues.
An exception raised while analyzing propagates (the loop has no
try-block).  Returns the collected rows and diagnostics. -/
def aggregateModifications (csvHeaders : List String) :
    List (Project × GitOutcome) → Except PyExc (List Row × List String)
  | [] => Except.ok ([], [])
  | (p, g) :: rest =>
    match Project.analyzeDirectory p g with
    | Except.error e => Except.error e
    | Except.ok q =>
      match aggregateModifications csvHeaders rest with
      | Except.error e => Except.error e
      | Except.ok (drows, dmsgs) =>
        let rh := Project.generateCsvData q
        let m1 := if rh.1 = [] then [noDataMsg q.relDir] else []
        if rh.2 = csvHeaders then Except.ok (rh.1 ++ drows, m1 ++ dmsgs)
        else Except.ok (drows, m1 ++ (mismatchMsg q.relDir :: dmsgs))

/-- Project.write_csv: returns the rows it appends to the file (none when
the project has no rows or its headers mismatch) and its diagnostics. -/
def Project.writeCsv (p : Project) (csvHeaders : List String) :
    List Row × List String :=
  let rh := p.generateCsvData
  if rh.1 = [] then ([], [noDataMsg p.relDir])
  else if rh.2 = csvHeaders then (rh.1, [])
  else ([], [mismatchMsg p.relDir])

/-- The analyze-and-append loop of
ProjectModificationAnalyzer._write_while_analyzing: rows written per
project, in order, with diagnostics. -/
def writeWhileAnalyzing (csvHeaders : List String) :
    List (Project × GitOutcome) → Except PyExc (List Row × List String)
  | [] => Except.ok ([], [])
  | (p, g) :: rest =>
    match Project.analyzeDirectory p g with
    | Except.error e => Except.error e
    | Except.ok q =>
      let wr := Project.writeCsv q csvHeaders
      match writeWhileAnalyzing csvHeaders rest with
      | Except.error e => Except.error e
      | Except.ok (rows, msgs) => Except.ok (wr.1 ++ rows, wr.2 ++ msgs)

/-- The cell values of a row in file order (DictWriter writes row[f] for f
in fieldnames; a written row's key list equals the fieldnames, so this is
the row's values in its own order). -/
def rowValues (r : Row) : List String := r.map Prod.snd

/-- Final report-file content under the buffered strategy
(_analyze_then_write): when no rows survive aggregation the function
returns before any file is created, so there is no report file (none);
otherwise the file holds the header line then every surviving row. -/
def analyzeThenWriteContent (csvHeaders : List String)
    (ps : List (Project × GitOutcome)) :
    Except PyExc (Option (List (List String))) :=
  match aggregateModifications csvHeaders ps with
  | Except.error e => Except.error e
  | Except.ok (data, _) =>
      Except.ok (if data = [] then none
                 else some (csvHeaders :: data.map rowValues))

/-- Final report-file content under the incremental strategy
(_write_while_analyzing): the header is always written first, then each
project's surviving rows are appended as it completes. -/
def writeWhileAnalyzingContent (csvHeaders : List String)
    (ps : List (Project × GitOutcome)) :
    Except PyExc (Option (List (List String))) :=
  match writeWhileAnalyzing csvHeaders ps with
  | Except.error e => Except.error e
  | Except.ok (rows, _) =>
      Except.ok (some (csvHeaders :: rows.map rowValues))

/-- Tokens of a compiled ignore regex.  The compilation chain
`p.replace(".", "\\.").replace("**", ".*").replace("*", "[^/]*")` yields
regexes built from literal characters (a dot is escaped and stays a
literal), the any-character class `.` and the class run `[^/]*`; note the
third replace also rewrites the star that the second replace introduced,
so a `**` in the pattern compiles to `.` followed by `[^/]*`. -/
inductive RTok where
| lit : Char → RTok
| anyChar : RTok
| starSeg : RTok
deriving DecidableEq

/-- The token sequence produced by the replace chain of
ProjectModificationAnalyzer._compile_ignore_patterns: scanning left to
right, a leftmost pair of stars becomes `.` then `[^/]*` and a lone star
becomes `[^/]*`; every other character (the tool's pattern grammar uses no
further regex metacharacters) is a literal. -/
def compileTokens : List Char → List RTok
  | [] => []
  | '*' :: '*' :: rest => RTok.anyChar :: RTok.starSeg :: compileTokens rest
  | '*' :: rest => RTok.starSeg :: compileTokens rest
  | c :: rest => RTok.lit c :: compileTokens rest

/-- Compile one ignore pattern.  normalize_rel on an already
slash-normalized pattern without a trailing separator is the identity, so
the model compiles the pattern text directly. -/
def compileIgnorePattern (pattern : String) : List RTok :=
  compileTokens pattern.toList

/-- The suffixes of a character list reachable by letting `[^/]*` consume
a prefix: any number of characters may be consumed as long as none is a
slash. -/
def starSuffixes : List Char → List (List Char)
  | [] => [[]]
  | c :: cs => (c :: cs) :: (if c = '/' then [] else starSuffixes cs)

/-- Does the token sequence match a prefix of the character list?  `.`
matches any character except a newline; `[^/]*` consumes any run of
non-slash characters. -/
def rmatchHere : List RTok → List Char → Bool
  | [], _ => true
  | RTok.lit _ :: _, [] => false
  | RTok.lit c :: ts, x :: xs => (c = x : Bool) && rmatchHere ts xs
  | RTok.anyChar :: _, [] => false
  | RTok.anyChar :: ts, x :: xs => (x ≠ Char.ofNat 10 : Bool) && rmatchHere ts xs
  | RTok.starSeg :: ts, s => (starSuffixes s).any (fun v => rmatchHere ts v)

/-- re.search: the compiled pattern matches starting at some position of
the subject (unanchored at both ends). -/
def rsearch (ts : List RTok) : List Char → Bool
  | [] => rmatchHere ts []
  | x :: xs => rmatchHere ts (x :: xs) || rsearch ts xs

/-- ProjectModificationAnalyzer._is_ignored for a project's relative
directory. -/
def isIgnored (ignorePatterns : List String) (relDir : String) : Bool :=
  if ignorePatterns.isEmpty then false
  else ignorePatterns.any (fun p => rsearch (compileIgnorePattern p) relDir.toList)

/-- main.get_year_window: [str(current_year - i) for i in range(year_range)]. -/
def getYearWindow (currentYear : Int) (yearRange : Nat) : List String :=
  (List.range yearRange).map (fun (i : Nat) => toString (currentYear - (i : Int)))

/-- A three-year window, as resolved for a run started in 2025 with Y = 3. -/
def w3 : List String := [("2025"), ("2024"), ("2023")]

/-- A five-year window, as resolved for a run started in 2025 with Y = 5. -/
def w5 : List String := [("2025"), ("2024"), ("2023"), ("2022"), ("2021")]

/-- git log output for three lifetime commits in calendar years 2024, 2024
and 2022. -/
def sampleDates : String := ("2024-05-01\n2024-03-02\n2022-01-01")

/-- A successful history query returning sampleDates. -/
def sampleOutcome : GitOutcome := GitOutcome.ran 0 sampleDates ("")

/-- A project discovered with one project file, under the three-year
window. -/
def sampleProject3 : Project := Project.init ("d") ("proj") [("a.csproj")] w3

/-- sampleProject3 after aggregating sampleDates. -/
def sampleAnalyzed3 : Project :=
  { dir := ("d"), relDir := ("proj"), projectfiles := [("a.csproj")],
    totalModifications := 3,
    yearCounts := [(("2025"), 0), (("2024"), 2), (("2023"), 0)],
    accLen := 3,
    accumulators := [(("Acc_1"), 0), (("Acc_2"), 2), (("Acc_3"), 2)] }

/-- A project under the five-year window whose history query will fail. -/
def failProject5 : Project := Project.init ("d1") ("p1") [("a.csproj")] w5

/-- A healthy project under the five-year window. -/
def goodProject5 : Project := Project.init ("d2") ("p2") [("b.csproj")] w5

/-- A successful history query with a single 2024 commit. -/
def goodOutcome : GitOutcome := GitOutcome.ran 0 ("2024-05-01") ("")

/-- The row goodProject5 contributes under the five-year window. -/
def goodRow : Row :=
  [(("Project"), ("p2/b.csproj")), (("Extension"), (".csproj")),
   (("Total"), ("1")), (("2025"), ("0")), (("2024"), ("1")), (("2023"), ("0")),
   (("2022"), ("0")), (("2021"), ("0")), (("Acc_1"), ("0")), (("Acc_2"), ("1")),
   (("Acc_3"), ("1")), (("Acc_4"), ("1")), (("Acc_5"), ("1"))]

/-- The all-zero row failProject5 contributes under the five-year window
after its history query fails with a caught exception. -/
def failRow : Row :=
  [(("Project"), ("p1/a.csproj")), (("Extension"), (".csproj")),
   (("Total"), ("0")), (("2025"), ("0")), (("2024"), ("0")), (("2023"), ("0")),
   (("2022"), ("0")), (("2021"), ("0")), (("Acc_1"), ("0")), (("Acc_2"), ("0")),
   (("Acc_3"), ("0")), (("Acc_4"), ("0")), (("Acc_5"), ("0"))]

/-- A project under the three-year window with an empty history, analyzed:
its row keys can never match the canonical header, which always carries
five accumulator columns. -/
def mismatchAnalyzed : Project :=
  { dir := ("d1"), relDir := ("p1"), projectfiles := [("a.csproj")],
    totalModifications := 0,
    yearCounts := [(("2025"), 0), (("2024"), 0), (("2023"), 0)],
    accLen := 3,
    accumulators := [(("Acc_1"), 0), (("Acc_2"), 0), (("Acc_3"), 0)] }

deriving instance DecidableEq for Except

/-- Bumping one key raises the total of the counts by at most one. -/
theorem bumpKey_sum_le (yc : List (String × Nat)) (y : String) :
    ((bumpKey yc y).map Prod.snd).sum ≤ (yc.map Prod.snd).sum + 1 := by
  induction yc with
  | nil => simp [bumpKey]
  | cons kv rest ih =>
    obtain ⟨k, v⟩ := kv
    by_cases h : k = y
    · simp only [bumpKey, if_pos h, List.map_cons, List.sum_cons]
      omega
    · simp only [bumpKey, if_neg h, List.map_cons, List.sum_cons]
      omega

/-- Tallying a list of dates raises the total of the counts by at most the
number of dates. -/
theorem tally_sum_le (dates : List String) : ∀ yc : List (String × Nat),
    ((tallyYearCounts yc dates).map Prod.snd).sum ≤
      (yc.map Prod.snd).sum + dates.length := by
  induction dates with
  | nil => intro yc; simp [tallyYearCounts]
  | cons d ds ih =>
    intro yc
    have h1 := bumpKey_sum_le yc (yearOf d)
    have h2 := ih (bumpKey yc (yearOf d))
    simp only [tallyYearCounts, List.foldl_cons] at h2 ⊢
    simp only [List.length_cons]
    omega

/-- Peeling one element off a prefix sum taken after a drop. -/
theorem getD_take_succ (l : List Nat) : ∀ i m : Nat,
    l.getD i 0 + ((l.drop (i + 1)).take m).sum = ((l.drop i).take (m + 1)).sum := by
  induction l with
  | nil => intro i m; simp
  | cons x xs ih =>
    intro i m
    cases i with
    | zero => simp
    | succ i => simpa using ih i m

/-- Each accumulator entry produced by the running-sum loop: position m of
accGo vals k r n is named after k + m and holds r plus the sum of the next
m + 1 values. -/
theorem accGo_getElem? (vals : List Nat) : ∀ n k r m : Nat, 1 ≤ k → m < n →
    (accGo vals k r n)[m]? =
      some ((("Acc_") ++ toString (k + m),
             r + ((vals.drop (k - 1)).take (m + 1)).sum)) := by
  intro n
  induction n with
  | zero => intro k r m hk hm; omega
  | succ n ih =>
    intro k r m hk hm
    have hk1 : k - 1 + 1 = k := Nat.succ_pred_eq_of_pos hk
    cases m with
    | zero =>
      have h0 := getD_take_succ vals (k - 1) 0
      rw [hk1] at h0
      simp only [List.take_zero, List.sum_nil, Nat.add_zero, Nat.zero_add] at h0
      simp only [accGo, List.getElem?_cons_zero, Nat.add_zero, Nat.zero_add,
        Option.some.injEq, Prod.mk.injEq, true_and]
      omega
    | succ m =>
      have hrec := ih (k + 1) (r + vals.getD (k - 1) 0) m (by omega) (by omega)
      have hstep := getD_take_succ vals (k - 1) (m + 1)
      rw [hk1] at hstep
      have hname : k + 1 + m = k + (m + 1) := by omega
      simp only [accGo, List.getElem?_cons_succ]
      rw [hrec, hname]
      simp only [Nat.add_sub_cancel, Option.some.injEq, Prod.mk.injEq, true_and]
      omega

/-- The i-th accumulator (1-based) computed by _compute_accumulators holds
the sum of the first i year-count values, in the insertion order of the
year-counts dict. -/
theorem computeAccumulators_getElem? (yc : List (String × Nat)) (accLen i : Nat)
    (h1 : 1 ≤ i) (h2 : i ≤ accLen) :
    (computeAccumulators yc accLen)[i - 1]? =
      some ((("Acc_") ++ toString i, ((yc.map Prod.snd).take i).sum)) := by
  have h := accGo_getElem? (yc.map Prod.snd) accLen 1 0 (i - 1) (le_refl 1) (by omega)
  have hi : 1 + (i - 1) = i := by omega
  have hi2 : i - 1 + 1 = i := by omega
  rw [hi, hi2] at h
  simpa [computeAccumulators] using h

/-- Prefix sums of a list of naturals are monotone in the prefix length. -/
theorem take_sum_mono (l : List Nat) (i j : Nat) (h : i ≤ j) :
    (l.take i).sum ≤ (l.take j).sum := by
  have hj : j = i + (j - i) := by omega
  rw [hj, List.take_add, List.sum_append]
  exact Nat.le_add_right _ _

/-- The counts dict built by Project.__init__ starts at zero everywhere. -/
theorem init_counts_sum (years : List String) :
    ((years.map (fun y => (y, (0 : Nat)))).map Prod.snd).sum = 0 := by
  induction years with
  | nil => simp
  | cons y ys ih => simpa using ih

/-- Whenever the history query returns normally, the returned total is at
least the number of returned dates (equal on success, and the dates are
empty when an exception was caught). -/
theorem gitDates_ok_le (dir : String) (g : GitOutcome) (total0 : Nat)
    (dates : List String) (total : Nat) (warns : List String)
    (h : getGitModificationDates dir g total0 = Except.ok (dates, total, warns)) :
    dates.length ≤ total := by
  cases g with
  | ran code out err =>
    by_cases hc : code = 0
    · simp only [getGitModificationDates, subprocessCheck, hc] at h
      simp only [if_neg (by omega : ¬ ((0 : Int) ≠ 0))] at h
      cases h
      exact le_refl _
    · simp only [getGitModificationDates, subprocessCheck, if_pos hc,
        caughtByGitLog] at h
      cases h
      simp
  | spawnFail msg =>
    simp only [getGitModificationDates, subprocessCheck, caughtByGitLog] at h
    cases h
    simp
  | undecodable =>
    simp [getGitModificationDates, subprocessCheck, caughtByGitLog] at h

/-- Shape of a successful analyze_directory call: the history query
returned normally and every field of the resulting project is determined
by its output. -/
theorem analyzeDirectory_ok_shape (p : Project) (g : GitOutcome) (q : Project)
    (hq : Project.analyzeDirectory p g = Except.ok q) :
    ∃ dates total warns,
      getGitModificationDates p.dir g p.totalModifications =
        Except.ok (dates, total, warns) ∧
      q = { p with totalModifications := total,
                   yearCounts := tallyYearCounts p.yearCounts dates,
                   accumulators :=
                     computeAccumulators (tallyYearCounts p.yearCounts dates)
                       p.accLen } := by
  cases hg : getGitModificationDates p.dir g p.totalModifications with
  | error e =>
    simp only [Project.analyzeDirectory, hg] at hq
    exact Except.noConfusion hq
  | ok v =>
    obtain ⟨dates, total, warns⟩ := v
    simp only [Project.analyzeDirectory, hg] at hq
    cases hq
    exact ⟨dates, total, warns, rfl, rfl⟩

/-- The rows collected by the buffered strategy coincide with the rows the
incremental strategy appends, project by project, and both strategies
propagate the same exception when one occurs. -/
theorem aggregate_rows_eq_incremental (h : List String) :
    ∀ ps : List (Project × GitOutcome),
    (aggregateModifications h ps).map Prod.fst =
      (writeWhileAnalyzing h ps).map Prod.fst := by
  intro ps
  induction ps with
  | nil => rfl
  | cons pg rest ih =>
    obtain ⟨p, g⟩ := pg
    simp only [aggregateModifications, writeWhileAnalyzing]
    cases hq : Project.analyzeDirectory p g with
    | error e => rfl
    | ok q =>
      cases ha : aggregateModifications h rest with
      | error e =>
        rw [ha] at ih
        cases hw : writeWhileAnalyzing h rest with
        | error e2 =>
          rw [hw] at ih
          simp only [Except.map] at ih
          cases ih
          rfl
        | ok v2 =>
          rw [hw] at ih
          simp [Except.map] at ih
      | ok v =>
        obtain ⟨dr, dm⟩ := v
        cases hw : writeWhileAnalyzing h rest with
        | error e2 =>
          rw [ha, hw] at ih
          simp [Except.map] at ih
        | ok v2 =>
          obtain ⟨rows2, msgs2⟩ := v2
          rw [ha, hw] at ih
          simp only [Except.map] at ih
          cases ih
          simp only [Project.writeCsv]
          by_cases hr1 : (Project.generateCsvData q).1 = []
          · by_cases hr2 : (Project.generateCsvData q).2 = h
            · simp [hr1, hr2, Except.map]
            · simp [hr1, hr2, Except.map]
          · by_cases hr2 : (Project.generateCsvData q).2 = h
            · simp [hr1, hr2, Except.map]
            · simp [hr1, hr2, Except.map]



/-- C1: the canonical CSV header is claimed to end with accumulator
columns Acc_1..Acc_k for k = min(5, Y); the analyzer in fact builds it
with Project.ACC_MAX_YEARS = 5 accumulator columns regardless of the
window size, so for the three-year window the header carries Acc_4 and
Acc_5 and differs from the min(5, Y)-deep header, while a project's own
row keys stop at Acc_3. -/
theorem c1_canonical_header_has_fixed_five_accumulators :
    analyzerCsvHeaders w3 =
      [("Project"), ("Extension"), ("Total"), ("2025"), ("2024"), ("2023"),
       ("Acc_1"), ("Acc_2"), ("Acc_3"), ("Acc_4"), ("Acc_5")] ∧
    (Project.generateCsvData sampleProject3).2 =
      [("Project"), ("Extension"), ("Total"), ("2025"), ("2024"), ("2023"),
       ("Acc_1"), ("Acc_2"), ("Acc_3")] ∧
    analyzerCsvHeaders w3 ≠ buildHeaders w3 (min ACC_MAX_YEARS w3.length) := by
  decide

/-- C2: for every project aggregated exactly once, the sum of the window
year counts never exceeds totalModifications: the total counts all raw
dates returned by the history query while buckets are bumped only for
window years. -/
theorem c2_total_ge_sum_yearCounts
    (dir rel : String) (pfiles years : List String) (g : GitOutcome)
    (q : Project)
    (hq : Project.analyzeDirectory (Project.init dir rel pfiles years) g =
      Except.ok q) :
    (q.yearCounts.map Prod.snd).sum ≤ q.totalModifications := by
  obtain ⟨dates, total, warns, hg, hshape⟩ := analyzeDirectory_ok_shape _ _ _ hq
  subst hshape
  have h1 := tally_sum_le dates (Project.init dir rel pfiles years).yearCounts
  have h2 : (((Project.init dir rel pfiles years).yearCounts).map Prod.snd).sum
      = 0 := init_counts_sum years
  have h3 := gitDates_ok_le _ _ _ _ _ _ hg
  show ((tallyYearCounts (Project.init dir rel pfiles years).yearCounts
    dates).map Prod.snd).sum ≤ total
  omega

/-- Witness for C2 at the end-to-end sample project. -/
theorem c2_total_ge_sum_yearCounts_witness :
    (sampleAnalyzed3.yearCounts.map Prod.snd).sum ≤
      sampleAnalyzed3.totalModifications :=
  c2_total_ge_sum_yearCounts ("d") ("proj") [("a.csproj")] w3 sampleOutcome
    sampleAnalyzed3 (by decide)

/-- C3: for every project and every valid accumulator index, Acc_i holds
the sum of the first i year-count buckets in window (most-recent-first)
order, and accumulator values are non-decreasing in the index. -/
theorem c3_accumulators_prefix_sums_monotone
    (dir rel : String) (pfiles years : List String) (g : GitOutcome)
    (q : Project) (i j : Nat)
    (hq : Project.analyzeDirectory (Project.init dir rel pfiles years) g =
      Except.ok q)
    (h1 : 1 ≤ i) (hij : i ≤ j) (hj : j ≤ min ACC_MAX_YEARS years.length) :
    q.accumulators[i - 1]? =
      some ((("Acc_") ++ toString i, ((q.yearCounts.map Prod.snd).take i).sum)) ∧
    q.accumulators[j - 1]? =
      some ((("Acc_") ++ toString j, ((q.yearCounts.map Prod.snd).take j).sum)) ∧
    ((q.yearCounts.map Prod.snd).take i).sum ≤
      ((q.yearCounts.map Prod.snd).take j).sum := by
  obtain ⟨dates, total, warns, hg, hshape⟩ := analyzeDirectory_ok_shape _ _ _ hq
  subst hshape
  refine ⟨?_, ?_, take_sum_mono _ i j hij⟩
  · exact computeAccumulators_getElem? _ (min ACC_MAX_YEARS years.length) i h1
      (le_trans hij hj)
  · exact computeAccumulators_getElem? _ (min ACC_MAX_YEARS years.length) j
      (le_trans h1 hij) hj

/-- Witness for C3 at the end-to-end sample project with i = 1, j = 3. -/
theorem c3_accumulators_prefix_sums_monotone_witness :
    sampleAnalyzed3.accumulators[1 - 1]? =
      some ((("Acc_") ++ toString 1,
             ((sampleAnalyzed3.yearCounts.map Prod.snd).take 1).sum)) ∧
    sampleAnalyzed3.accumulators[3 - 1]? =
      some ((("Acc_") ++ toString 3,
             ((sampleAnalyzed3.yearCounts.map Prod.snd).take 3).sum)) ∧
    ((sampleAnalyzed3.yearCounts.map Prod.snd).take 1).sum ≤
      ((sampleAnalyzed3.yearCounts.map Prod.snd).take 3).sum :=
  c3_accumulators_prefix_sums_monotone ("d") ("proj") [("a.csproj")] w3
    sampleOutcome sampleAnalyzed3 1 3 (by decide) (by decide) (by decide)
    (by decide)

/-- C4: the compiled ignore pattern for a**d is literal a, then the
any-character class, then a single-segment run, then literal d — the
recursive wildcard cannot cross more than one slash, so a**d fails to
match a/b/c/d, contrary to the claimed across-segments semantics; and a
literal pattern matches as an unanchored substring, so src/Legacy also
ignores src/LegacyOther, contrary to the claimed exact-segment semantics.
The single-star semantics (a run within one segment) does hold. -/
theorem c4_ignore_pattern_star_semantics :
    compileIgnorePattern ("a**d") =
      [RTok.lit 'a', RTok.anyChar, RTok.starSeg, RTok.lit 'd'] ∧
    isIgnored [("a**d")] ("a/b/c/d") = false ∧
    isIgnored [("a*d")] ("ab/cd") = false ∧
    isIgnored [("a*d")] ("xabcd") = true ∧
    isIgnored [("src/Legacy")] ("src/LegacyOther") = true := by
  decide

/-- C5: a history query that raises a caught exception (spawn failure or
non-zero exit) yields an empty date list, a warning, total 0, and the
project still contributes an all-zero row while the run continues; but a
query whose output is undecodable raises UnicodeDecodeError, which the
except clause does not list, so it propagates and aborts the run instead
of degrading to an empty list. -/
theorem c5_failed_query_zero_row_vs_undecodable_crash :
    getGitModificationDates ("d1") GitOutcome.undecodable 0 =
      Except.error PyExc.unicodeDecodeError ∧
    Project.analyzeDirectory failProject5 GitOutcome.undecodable =
      Except.error PyExc.unicodeDecodeError ∧
    getGitModificationDates ("d1") (GitOutcome.spawnFail ("boom")) 0 =
      Except.ok ([], 0, [gitLogExcMsg ("d1")]) ∧
    aggregateModifications (analyzerCsvHeaders w5)
        [(failProject5, GitOutcome.spawnFail ("boom")),
         (goodProject5, goodOutcome)] =
      Except.ok ([failRow, goodRow], []) := by
  decide

/-- C6 counterexample: on a run where zero rows survive (a three-year
window makes every row fail the header check), the buffered strategy
writes no report file at all while the incremental strategy leaves a
header-only file, so the two final contents differ. -/
theorem c6_buffered_incremental_differ_when_no_rows :
    analyzeThenWriteContent (analyzerCsvHeaders w3)
        [(sampleProject3, GitOutcome.ran 0 ("") (""))] = Except.ok none ∧
    writeWhileAnalyzingContent (analyzerCsvHeaders w3)
        [(sampleProject3, GitOutcome.ran 0 ("") (""))] =
      Except.ok (some [analyzerCsvHeaders w3]) ∧
    analyzeThenWriteContent (analyzerCsvHeaders w3)
        [(sampleProject3, GitOutcome.ran 0 ("") (""))] ≠
      writeWhileAnalyzingContent (analyzerCsvHeaders w3)
        [(sampleProject3, GitOutcome.ran 0 ("") (""))] := by
  decide

/-- C6 amended: whenever at least one row survives aggregation, the
buffered and the incremental strategies produce identical final
report-file content. -/
theorem c6_buffered_incremental_equal_when_rows_survive
    (h : List String) (ps : List (Project × GitOutcome))
    (data : List Row) (msgs : List String)
    (ha : aggregateModifications h ps = Except.ok (data, msgs))
    (hne : data ≠ []) :
    analyzeThenWriteContent h ps = writeWhileAnalyzingContent h ps := by
  have hrows := aggregate_rows_eq_incremental h ps
  rw [ha] at hrows
  cases hw : writeWhileAnalyzing h ps with
  | error e =>
    rw [hw] at hrows
    simp [Except.map] at hrows
  | ok v =>
    obtain ⟨rows2, m2⟩ := v
    rw [hw] at hrows
    simp only [Except.map] at hrows
    cases hrows
    simp [analyzeThenWriteContent, writeWhileAnalyzingContent, ha, hw, hne]

/-- Witness for the amended C6: one healthy project under a five-year
window, where one row survives. -/
theorem c6_buffered_incremental_equal_when_rows_survive_witness :
    analyzeThenWriteContent (analyzerCsvHeaders w5)
        [(goodProject5, goodOutcome)] =
      writeWhileAnalyzingContent (analyzerCsvHeaders w5)
        [(goodProject5, goodOutcome)] :=
  c6_buffered_incremental_equal_when_rows_survive (analyzerCsvHeaders w5)
    [(goodProject5, goodOutcome)] [goodRow] [] (by decide) (by decide)

/-- C7: a project whose generated row keys disagree with the canonical
header contributes no rows, only a mismatch diagnostic, and the rows of
the remaining projects are exactly what the run still writes — a single
mismatched project never aborts aggregation. -/
theorem c7_mismatched_project_dropped_run_continues
    (h : List String) (p : Project) (g : GitOutcome) (q : Project)
    (rest : List (Project × GitOutcome)) (data : List Row) (msgs : List String)
    (hq : Project.analyzeDirectory p g = Except.ok q)
    (hrows : (Project.generateCsvData q).1 ≠ [])
    (hhead : (Project.generateCsvData q).2 ≠ h)
    (hrest : aggregateModifications h rest = Except.ok (data, msgs)) :
    aggregateModifications h ((p, g) :: rest) =
      Except.ok (data, mismatchMsg q.relDir :: msgs) := by
  simp only [aggregateModifications, hq, hrest]
  simp [hrows, hhead]

/-- Witness for C7: a three-year-window project (whose row keys cannot
match the five-accumulator header) followed by a healthy five-year-window
project; the run drops the first and still writes the second. -/
theorem c7_mismatched_project_dropped_run_continues_witness :
    aggregateModifications (analyzerCsvHeaders w5)
        [((Project.init ("d1") ("p1") [("a.csproj")] w3),
          GitOutcome.ran 0 ("") ("")),
         (goodProject5, goodOutcome)] =
      Except.ok ([goodRow], mismatchMsg (("p1")) :: []) :=
  c7_mismatched_project_dropped_run_continues (analyzerCsvHeaders w5)
    (Project.init ("d1") ("p1") [("a.csproj")] w3) (GitOutcome.ran 0 ("") (""))
    mismatchAnalyzed [(goodProject5, goodOutcome)] [goodRow] []
    (by decide) (by decide) (by decide) (by decide)

/-- C8: the resolved window for size Y starting from the current calendar
year is [current, current-1, ..., current-Y+1] as decimal label strings,
and a freshly constructed project's yearCounts has exactly those keys in
that order, each zero. -/
theorem c8_year_window_keys
    (c : Int) (Y i : Nat) (dir rel : String) (pfiles : List String)
    (hY : 1 ≤ Y) (hi : i < Y) :
    (getYearWindow c Y).length = Y ∧
    (getYearWindow c Y)[i]? = some (toString (c - (i : Int))) ∧
    (Project.init dir rel pfiles (getYearWindow c Y)).yearCounts =
      (getYearWindow c Y).map (fun y => (y, (0 : Nat))) := by
  refine ⟨?_, ?_, rfl⟩
  · simp only [getYearWindow, List.length_map, List.length_range]
  · show ((List.range Y).map (fun (k : Nat) => toString (c - (k : Int))))[i]? =
      some (toString (c - (i : Int)))
    rw [List.getElem?_map, List.getElem?_range hi]
    rfl

/-- Witness for C8 at current year 2025, window size 3, index 1. -/
theorem c8_year_window_keys_witness :
    (getYearWindow 2025 3).length = 3 ∧
    (getYearWindow 2025 3)[1]? =
      some (toString ((2025 : Int) - ((1 : Nat) : Int))) ∧
    (Project.init ("d") ("proj") [("a.csproj")] (getYearWindow 2025 3)).yearCounts
      = (getYearWindow 2025 3).map (fun y => (y, (0 : Nat))) :=
  c8_year_window_keys 2025 3 1 ("d") ("proj") [("a.csproj")] (by decide)
    (by decide)

/-- C9: three lifetime commits in years [2024, 2024, 2022] against the
window [2025, 2024, 2023] give yearCounts 0/2/0, totalModifications 3 and
accumulators 0/2/2. -/
theorem c9_end_to_end_sample :
    (Project.analyzeDirectory sampleProject3 sampleOutcome).map
        (fun q => (q.totalModifications, q.yearCounts, q.accumulators)) =
      Except.ok (3, [(("2025"), 0), (("2024"), 2), (("2023"), 0)],
        [(("Acc_1"), 0), (("Acc_2"), 2), (("Acc_3"), 2)]) := by
  decide

/-- C10: with check=True a successful subprocess_check always carries
returncode 0, so the non-zero-returncode warning branch inside
_get_git_modification_dates is unreachable, and any non-zero git exit
takes the exception path: the query returns the empty list with
totalModifications left at 0. -/
theorem c10_nonzero_exit_unreachable_warning
    (g : GitOutcome) (r : CompletedProcess) (dir out err : String) (code : Int)
    (hok : subprocessCheck g = Except.ok r) (hcode : code ≠ 0) :
    r.returncode = 0 ∧
    getGitModificationDates dir (GitOutcome.ran code out err) 0 =
      Except.ok ([], 0, [gitLogExcMsg dir]) := by
  constructor
  · cases g with
    | ran c o e =>
      by_cases hc : c = 0
      · subst hc
        simp [subprocessCheck] at hok
        rw [← hok]
      · simp [subprocessCheck, hc] at hok
    | spawnFail m => simp [subprocessCheck] at hok
    | undecodable => simp [subprocessCheck] at hok
  · simp [getGitModificationDates, subprocessCheck, hcode, caughtByGitLog]

/-- Witness for C10 at a zero-exit success and a non-zero-exit failure. -/
theorem c10_nonzero_exit_unreachable_warning_witness :
    ({ returncode := 0, stdout := ("ok"), stderr := ("") } :
        CompletedProcess).returncode = 0 ∧
    getGitModificationDates ("d1") (GitOutcome.ran 1 ("x") ("boom")) 0 =
      Except.ok ([], 0, [gitLogExcMsg ("d1")]) :=
  c10_nonzero_exit_unreachable_warning (GitOutcome.ran 0 ("ok") (""))
    { returncode := 0, stdout := ("ok"), stderr := ("") } ("d1") ("x") ("boom")
    1 (by decide) (by decide)

end PMH
